import Mathlib

/-!
Verification of the preprocessing pipeline of JSBach-SampleGenerator
(`preprocess.py`): a shallow embedding of the data model and the
operations of the five collaborator classes (`Loader`, `Padder`,
`LogSpectrogramExtractor`, `MinMaxNormalizer`, `Saver`) and of the
orchestrating `PreprocessingPipeline`, followed by theorems settling the
spec claims.

Modelling conventions:
* Python/numpy floats are embedded as exact rationals (`ℚ`); numpy arrays
  as lists of rationals (the claims never depend on 2-D shape, only on
  the multiset of values, so a flattened view suffices).
* A numpy value that is not a finite number (NaN or ±inf, as produced by
  a division whose denominator is zero) is embedded as `none : Option ℚ`.
* Library calls whose body is outside this repository (`librosa.load`,
  `librosa.stft`/`amplitude_to_db`, the possibility of `np.save` failing
  with an `IOError`) are oracles collected in an `Env` record; the
  pipeline's own control flow is translated statement by statement.
* Exceptions are embedded with `Except String` / an `Option String`
  error component; a raised exception propagates, as in the source,
  which installs no handler anywhere.
-/

namespace JSBach

/-- A numpy 1-D array of finite floats, as exact rationals. -/
abbrev Arr := List ℚ

/-- `array.min()` of a numpy array (the callers below only use it on
nonempty arrays; numpy raises on an empty one, which the pipeline
embedding checks separately). -/
def arrMin : Arr → ℚ
  | [] => 0
  | x :: xs => xs.foldl min x

/-- `array.max()` of a numpy array. -/
def arrMax : Arr → ℚ
  | [] => 0
  | x :: xs => xs.foldl max x

/-- Python `int(q)` on a float: truncation toward zero. -/
def pyInt (q : ℚ) : ℤ := if q < 0 then q.ceil else q.floor

/-- Python 3 `round(q)` to an integer: round half to even. -/
def pyRound (q : ℚ) : ℤ :=
  if q - q.floor < 1/2 then q.floor
  else if 1/2 < q - q.floor then q.floor + 1
  else if q.floor % 2 = 0 then q.floor else q.floor + 1

/-- `os.path.split(p)[1]`: the basename, everything after the last `/`. -/
def basename (p : String) : String := (p.splitOn "/").getLastD ""

/-- `os.path.join(d, f)` for the directory strings used in this
repository (nonempty, no trailing separator). -/
def joinPath (d f : String) : String := d ++ "/" ++ f

/-- `Loader.__init__` state (`preprocess.py` lines 24-27).  `load` itself
wraps `librosa.load`, a call outside this repository, so it lives in the
`Env` oracle below, parametrised by this configuration. -/
structure Loader where
  sample_rate : ℚ
  duration : ℚ
  mono : Bool
deriving DecidableEq

/-- `Padder.__init__` (lines 45-46): the numpy pad mode. -/
structure Padder where
  mode : String
deriving DecidableEq

/-- `Padder.left_pad` (lines 49-53): `np.pad(array, (n, 0), mode=self.mode)`.
The embedding covers the `"constant"` mode with its default zero fill —
the only mode this repository ever constructs (line 253, `Padder()`);
any other mode is outside the model and returns `none`. -/
def Padder.left_pad (p : Padder) (array : Arr) (num_missing_items : Nat) :
    Option Arr :=
  if p.mode = "constant" then some (List.replicate num_missing_items 0 ++ array)
  else none

/-- `Padder.right_pad` (lines 56-60): `np.pad(array, (0, n), mode=self.mode)`,
constant mode as in `left_pad`. -/
def Padder.right_pad (p : Padder) (array : Arr) (num_missing_items : Nat) :
    Option Arr :=
  if p.mode = "constant" then some (array ++ List.replicate num_missing_items 0)
  else none

/-- `LogSpectrogramExtractor.__init__` (lines 71-73); `extract` calls
`librosa.stft` and `librosa.amplitude_to_db`, which are outside this
repository and live in the `Env` oracle. -/
structure LogSpectrogramExtractor where
  frame_size : ℤ
  hop_length : ℤ
deriving DecidableEq

/-- `MinMaxNormalizer.__init__` (lines 96-98): the target range
(`self.min`, `self.max`). -/
structure MinMaxNormalizer where
  min : ℚ
  max : ℚ
deriving DecidableEq

/-- IEEE division as the source performs it, unguarded: a zero
denominator yields a non-finite float (`none`; at every use site below
with a zero denominator the numerator is also zero, so the numpy result
is NaN). -/
def fdiv (x y : ℚ) : Option ℚ :=
  if y = 0 then none else some (x / y)

/-- `MinMaxNormalizer.normalize` (lines 101-104):
`norm_array = (array - array.min()) / (array.max() - array.min())`
then `norm_array * (self.max - self.min) + self.min`, elementwise.
Entries are `Option ℚ`: `none` is the NaN produced when
`array.max() - array.min()` is zero. -/
def MinMaxNormalizer.normalize (m : MinMaxNormalizer) (array : Arr) :
    List (Option ℚ) :=
  array.map fun x =>
    (fdiv (x - arrMin array) (arrMax array - arrMin array)).map
      fun q => q * (m.max - m.min) + m.min

/-- `MinMaxNormalizer.denormalize` (lines 107-110):
`array = (norm_array - self.min) / (self.max - self.min)` then
`array * (original_max - original_min) + original_min`, elementwise,
NaN-propagating. -/
def MinMaxNormalizer.denormalize (m : MinMaxNormalizer)
    (norm_array : List (Option ℚ)) (original_min original_max : ℚ) :
    List (Option ℚ) :=
  norm_array.map fun x? =>
    x?.bind fun x =>
      (fdiv (x - m.min) (m.max - m.min)).map
        fun q => q * (original_max - original_min) + original_min

/-- The in-memory `min_max_values` dict: an insertion-ordered association
list from the key actually stored (the value of the `save_path` variable
in `_process_file`, a `str` or Python `None`, hence `Option String`) to
the `{"min": …, "max": …}` record, as a pair. -/
abbrev Registry := List (Option String × (ℚ × ℚ))

/-- Python dict assignment `d[k] = v`: update in place if the key is
present, else append, preserving insertion order. -/
def dictSet (d : Registry) (k : Option String) (v : ℚ × ℚ) : Registry :=
  if d.any (fun kv => kv.1 = k) then
    d.map fun kv => if kv.1 = k then (k, v) else kv
  else d ++ [(k, v)]

/-- The observable file-system effects of a run: the paths handed to
`np.save` (in order), and the registry snapshots handed to
`pickle.dump` via `save_min_max_values` (in order). -/
structure FS where
  features : List String
  min_max_saves : List Registry
deriving DecidableEq

def FS.empty : FS := ⟨[], []⟩

/-- `Saver.__init__` (lines 120-123). -/
structure Saver where
  feature_save_dir : String
  min_max_values_save_dir : String
deriving DecidableEq

/-- `Saver._generate_save_path` (lines 144-147):
`os.path.join(self.feature_save_dir, os.path.split(file_path)[1] + ".npy")`. -/
def Saver._generate_save_path (s : Saver) (file_path : String) : String :=
  joinPath s.feature_save_dir (basename file_path ++ ".npy")

/-- `Saver.save_feature` (lines 126-128): generates the save path and
calls `np.save(save_path, feature)`.  The Python function body has no
`return` statement, so its return value is `None` — embedded as the
`none` in the result pair. -/
def Saver.save_feature (s : Saver) (fs : FS) (feature : List (Option ℚ))
    (file_path : String) : FS × Option String :=
  let save_path := s._generate_save_path file_path
  ({ fs with features := fs.features ++ [save_path] }, none)

/-- `Saver.save_min_max_values` (lines 131-134): pickles the whole
registry to `min_max_values_save_dir/min_max_values.pkl` (one snapshot
appended per call). -/
def Saver.save_min_max_values (s : Saver) (fs : FS) (min_max_values : Registry) :
    FS :=
  { fs with min_max_saves := fs.min_max_saves ++ [min_max_values] }

/-- `PreprocessingPipeline.__init__` (lines 166-175): collaborator
attributes start as `None`; `min_max_values` starts empty. -/
structure PreprocessingPipeline where
  padder : Option Padder
  extractor : Option LogSpectrogramExtractor
  normalizer : Option MinMaxNormalizer
  saver : Option Saver
  min_max_values : Registry
  loaderAttr : Option Loader
  num_expected_samples : Option ℤ
deriving DecidableEq

def PreprocessingPipeline.init : PreprocessingPipeline :=
  ⟨none, none, none, none, [], none, none⟩

/-- The `loader` property setter (lines 183-186): stores the loader in
`self._loader` and recomputes
`self._num_expected_samples = int(loader.sample_rate * loader.duration)`
in the same assignment. -/
def PreprocessingPipeline.setLoader (p : PreprocessingPipeline) (l : Loader) :
    PreprocessingPipeline :=
  { p with loaderAttr := some l,
           num_expected_samples := some (pyInt (l.sample_rate * l.duration)) }

/-- Oracles for the library calls outside this repository:
`librosa.load` inside `Loader.load`, the `librosa.stft` /
`np.abs` / `librosa.amplitude_to_db` body of
`LogSpectrogramExtractor.extract` (yielding the log spectrogram's
values), and a possible `IOError` from `np.save` at a given path
(`none` = the write succeeds). -/
structure Env where
  load : Loader → String → Except String Arr
  stft_db : LogSpectrogramExtractor → Arr → Except String Arr
  save_err : String → Option String

/-- `PreprocessingPipeline._is_padding_necessary` (lines 213-218):
`len(signal) < self._num_expected_samples` (a `TypeError` if the loader
was never assigned and the attribute is still `None`). -/
def PreprocessingPipeline._is_padding_necessary (p : PreprocessingPipeline)
    (signal : Arr) : Except String Bool :=
  match p.num_expected_samples with
  | none => .error "TypeError: len(signal) < None"
  | some n => .ok (decide ((signal.length : ℤ) < n))

/-- `PreprocessingPipeline._apply_padding` (lines 221-226):
`self.padder.right_pad(signal, self._num_expected_samples - len(signal))`
(only ever called when the length is strictly below the expected count,
so the deficit is positive; an unmodelled pad mode or a missing
attribute is an error). -/
def PreprocessingPipeline._apply_padding (p : PreprocessingPipeline)
    (signal : Arr) : Except String Arr :=
  match p.num_expected_samples, p.padder with
  | some n, some pd =>
      match pd.right_pad signal (n - signal.length).toNat with
      | some s => .ok s
      | none => .error "unmodelled pad mode"
  | _, _ => .error "AttributeError"

/-- Steps 1-2 of `_process_file` after the load: the conditional padding
(lines 204-205). -/
def PreprocessingPipeline.padStep (p : PreprocessingPipeline) (signal : Arr) :
    Except String Arr :=
  match p._is_padding_necessary signal with
  | .error e => .error e
  | .ok b => if b then p._apply_padding signal else .ok signal

/-- The normalize stage as `_process_file` runs it: numpy raises a
`ValueError` when `array.min()` is taken of an empty array; otherwise
`MinMaxNormalizer.normalize` runs (it never raises — a zero-width range
silently produces NaNs, see `MinMaxNormalizer.normalize`). -/
def normalizeStage (m : MinMaxNormalizer) (feature : Arr) :
    Except String (List (Option ℚ)) :=
  if feature = [] then .error "ValueError: zero-size array reduction"
  else .ok (m.normalize feature)

/-- `PreprocessingPipeline._store_min_max_value` (lines 229-234). -/
def PreprocessingPipeline._store_min_max_value (p : PreprocessingPipeline)
    (save_path : Option String) (min_val max_val : ℚ) : PreprocessingPipeline :=
  { p with min_max_values := dictSet p.min_max_values save_path (min_val, max_val) }

/-- `PreprocessingPipeline._process_file` (lines 200-210), stage by
stage.  The result is the pipeline/file-system state after the call plus
`some e` when a stage raised (the exception propagates to `process`); on
a raise the state is unchanged, because the only mutations —
`np.save` inside `save_feature` and the registry store — happen after
every fallible stage has succeeded (`np.save` is modelled atomic: on an
`IOError` no path is recorded).  Line 209 binds
`save_path = self.saver.save_feature(...)`, whose value is `None`
(`save_feature` has no return statement), and line 210 stores
`feature.min()`/`feature.max()` of the *pre-normalization* feature under
that key. -/
def PreprocessingPipeline._process_file (env : Env) (p : PreprocessingPipeline)
    (fs : FS) (file_path : String) :
    (PreprocessingPipeline × FS) × Option String :=
  match p.loaderAttr with
  | none => ((p, fs), some "AttributeError: loader is None")
  | some l =>
    match env.load l file_path with
    | .error e => ((p, fs), some e)
    | .ok signal0 =>
      match p.padStep signal0 with
      | .error e => ((p, fs), some e)
      | .ok signal =>
        match p.extractor with
        | none => ((p, fs), some "AttributeError: extractor is None")
        | some ex =>
          match env.stft_db ex signal with
          | .error e => ((p, fs), some e)
          | .ok feature =>
            match p.normalizer with
            | none => ((p, fs), some "AttributeError: normalizer is None")
            | some nm =>
              match normalizeStage nm feature with
              | .error e => ((p, fs), some e)
              | .ok norm_feature =>
                match p.saver with
                | none => ((p, fs), some "AttributeError: saver is None")
                | some sv =>
                  match env.save_err (sv._generate_save_path file_path) with
                  | some e => ((p, fs), some e)
                  | none =>
                    ((p._store_min_max_value
                        (sv.save_feature fs norm_feature file_path).2
                        (arrMin feature) (arrMax feature),
                      (sv.save_feature fs norm_feature file_path).1), none)

/-- `PreprocessingPipeline.process` (lines 189-197): walk the files in
traversal order, processing each; an uncaught exception aborts the walk
and propagates.  After the walk completes,
`self.saver.save_min_max_values(self.min_max_values)` runs
unconditionally (an `AttributeError` if no saver was assigned). -/
def PreprocessingPipeline.process (env : Env) (p : PreprocessingPipeline)
    (fs : FS) : List String → (PreprocessingPipeline × FS) × Option String
  | [] =>
    match p.saver with
    | none => ((p, fs), some "AttributeError: saver is None")
    | some sv => ((p, sv.save_min_max_values fs p.min_max_values), none)
  | file :: rest =>
    match p._process_file env fs file with
    | (st, some e) => (st, some e)
    | ((p', fs'), none) => p'.process env fs' rest

/-- A heap of numpy array objects, for stating what `normalize` does to
the *storage* of its argument: references are indices into the heap. -/
structure NpHeap where
  arrays : List Arr
deriving DecidableEq

/-- Dereference (out-of-range references read as an empty array; the
theorems below restrict to valid references). -/
def NpHeap.get (h : NpHeap) (r : Nat) : Arr := h.arrays.getD r []

/-- Allocate a fresh array object, returning the extended heap and the
fresh reference. -/
def NpHeap.alloc (h : NpHeap) (a : Arr) : NpHeap × Nat :=
  (⟨h.arrays ++ [a]⟩, h.arrays.length)

/-- The storage behaviour of `MinMaxNormalizer.normalize` (lines
101-104): each of the two statements is built from numpy operations
(`-`, `/`, `*`, `+`, none in-place, no `out=` argument), each of which
allocates a fresh array; the input reference is never written through.
Values of the fresh arrays are given in exact arithmetic here; the
NaN-aware value semantics is `MinMaxNormalizer.normalize` above. -/
def MinMaxNormalizer.normalizeRef (m : MinMaxNormalizer) (h : NpHeap)
    (r : Nat) : NpHeap × Nat :=
  let a := h.get r
  let (h1, r1) := h.alloc
    (a.map fun x => (x - arrMin a) / (arrMax a - arrMin a))
  let (h2, r2) := h1.alloc
    ((h1.get r1).map fun x => x * (m.max - m.min) + m.min)
  (h2, r2)

/-! ### Concrete fixtures

A fully wired pipeline (mirroring the `__main__` wiring, lines 240-263,
with a small loader configuration so that concrete runs stay small) and
a benign environment whose oracles always succeed. -/

/-- The `__main__` collaborators (lines 252-256) with a small loader:
`sample_rate = 2`, `duration = 3/2`, so `_num_expected_samples = 3`. -/
def demoPipeline : PreprocessingPipeline :=
  { PreprocessingPipeline.init.setLoader ⟨2, 3/2, true⟩ with
      padder := some ⟨"constant"⟩,
      extractor := some ⟨512, 256⟩,
      normalizer := some ⟨0, 1⟩,
      saver := some ⟨"spectrograms", "minmax"⟩ }

/-- An environment in which every oracle succeeds: every audio file
decodes to the 3-sample signal `[1, 1, 1]` and every spectrogram has the
values `[0, 1]`. -/
def benignEnv : Env :=
  ⟨fun _ _ => .ok [1, 1, 1], fun _ _ => .ok [0, 1], fun _ => none⟩

/-- An environment whose loader always raises a decode error. -/
def decodeErrEnv : Env :=
  ⟨fun _ _ => .error "DecodeError", fun _ _ => .ok [0, 1], fun _ => none⟩

/-! ### Helper lemmas -/

/-- `_process_file` never touches the registry-persistence artifact:
only `process` calls `save_min_max_values`. -/
theorem processFile_preserves_min_max_saves (env : Env)
    (p : PreprocessingPipeline) (fs : FS) (file_path : String) :
    ((PreprocessingPipeline._process_file env p fs file_path).1.2).min_max_saves =
      fs.min_max_saves := by
  unfold PreprocessingPipeline._process_file
  repeat' split
  all_goals rfl

/-- `_process_file` only ever updates `min_max_values`: the loader
reference and the derived `_num_expected_samples` survive each file. -/
theorem processFile_preserves_loader_fields (env : Env)
    (p : PreprocessingPipeline) (fs : FS) (file_path : String) :
    ((PreprocessingPipeline._process_file env p fs file_path).1.1).num_expected_samples =
        p.num_expected_samples ∧
    ((PreprocessingPipeline._process_file env p fs file_path).1.1).loaderAttr =
        p.loaderAttr := by
  unfold PreprocessingPipeline._process_file
  repeat' split
  all_goals exact ⟨rfl, rfl⟩

/-! ### Claim theorems -/

/-- C8: with the default constant fill mode, `right_pad(a, n)` returns
`a` followed by `n` zeros and `left_pad(a, n)` returns `n` zeros
followed by `a`, for every array `a` and every `n ≥ 0`; in particular
`right_pad([1,2,3], 2) = [1,2,3,0,0]`. -/
theorem C8_pad_appends_zeros (array : Arr) (n : Nat) :
    (Padder.mk "constant").right_pad array n =
        some (array ++ List.replicate n 0) ∧
    (Padder.mk "constant").left_pad array n =
        some (List.replicate n 0 ++ array) ∧
    (Padder.mk "constant").right_pad [1, 2, 3] 2 = some [1, 2, 3, 0, 0] :=
  ⟨rfl, rfl, rfl⟩

/-- C2 (code evaluated at the failing input): `Saver.save_feature` does
*not* return the save path — its body has no return statement, so it
returns `None` — even though `Saver._generate_save_path` does derive
`feature_save_dir/<basename>.npy` deterministically exactly as the claim
describes (and `_process_file` line 209 visibly expects the path back). -/
theorem C2_save_feature_returns_none :
    (Saver.save_feature ⟨"spectrograms", "minmax"⟩ FS.empty [some 0]
        "recordings/0_jackson_0.wav").2 = none ∧
    Saver._generate_save_path ⟨"spectrograms", "minmax"⟩
        "recordings/0_jackson_0.wav" = "spectrograms/0_jackson_0.wav.npy" ∧
    (Saver.save_feature ⟨"spectrograms", "minmax"⟩ FS.empty [some 0]
        "recordings/0_jackson_0.wav").2 ≠
      some "spectrograms/0_jackson_0.wav.npy" := by
  have h1 : (Saver.save_feature ⟨"spectrograms", "minmax"⟩ FS.empty [some 0]
      "recordings/0_jackson_0.wav").2 = none := by with_unfolding_all rfl
  exact ⟨h1, by with_unfolding_all rfl, by rw [h1]; simp⟩

/-- C5 (code evaluated at the failing input): on the constant array
`[5, 5]` the unguarded division of `normalize` has the zero denominator
`array.max() - array.min()` (and zero numerators), so every output entry
is NaN (`none`); nothing maps the array to the `min_target` `0`. -/
theorem C5_normalize_constant_array_nan :
    MinMaxNormalizer.normalize ⟨0, 1⟩ [5, 5] = [none, none] ∧
    MinMaxNormalizer.normalize ⟨0, 1⟩ [5, 5] ≠ [some 0, some 0] := by
  have h1 : MinMaxNormalizer.normalize ⟨0, 1⟩ [5, 5] = [none, none] := by
    with_unfolding_all rfl
  exact ⟨h1, by rw [h1]; simp⟩

/-- C1 (code evaluated at the failing input): running `process` over two
valid audio files with zero failures saves two feature files, yet leaves
the registry with exactly ONE entry, keyed `None` — because
`save_feature` returns `None`, every file's min/max is stored under the
same `None` key, each overwriting the previous — not two entries keyed
by the save paths as the claim states. -/
theorem C1_registry_collapses_to_none_key :
    (PreprocessingPipeline.process benignEnv demoPipeline FS.empty
        ["dir/a.wav", "dir/b.wav"]).2 = none ∧
    (PreprocessingPipeline.process benignEnv demoPipeline FS.empty
        ["dir/a.wav", "dir/b.wav"]).1.2.features =
      ["spectrograms/a.wav.npy", "spectrograms/b.wav.npy"] ∧
    (PreprocessingPipeline.process benignEnv demoPipeline FS.empty
        ["dir/a.wav", "dir/b.wav"]).1.1.min_max_values = [(none, (0, 1))] := by
  refine ⟨?_, ?_, ?_⟩ <;> with_unfolding_all rfl

/-- C7 (counterexample): over an empty directory — zero files succeeded
— the walk completes and `process` persists the (empty) registry anyway:
`save_min_max_values` receives exactly one snapshot, `[]`, where the
claim demands it not be persisted at all. -/
theorem C7_counterexample_empty_dir_persists :
    (PreprocessingPipeline.process benignEnv demoPipeline FS.empty []).2 =
        none ∧
    (PreprocessingPipeline.process benignEnv demoPipeline FS.empty
        []).1.2.min_max_saves = [[]] := by
  constructor <;> with_unfolding_all rfl

/-- C3 (counterexample): `_num_expected_samples` is computed with
Python's `int`, which truncates, not `round`: for a loader with
`sample_rate = 3`, `duration = 1/2` the setter stores
`int(3·(1/2)) = 1`, while `round(3·(1/2)) = 2`; the padding step then
leaves the 1-sample signal `[0]` at length `1 ≠ 2`. -/
theorem C3_counterexample_int_vs_round :
    (PreprocessingPipeline.init.setLoader ⟨3, 1/2, true⟩).num_expected_samples =
        some 1 ∧
    pyRound ((3 : ℚ) * (1/2)) = 2 ∧
    (PreprocessingPipeline.init.setLoader ⟨3, 1/2, true⟩).padStep [0] =
        .ok [0] ∧
    (([(0 : ℚ)].length : ℤ) ≠ 2) := by
  refine ⟨?_, ?_, ?_, by decide⟩ <;> with_unfolding_all rfl

/-- C4: for every array `a` with `a.max() > a.min()` and every
normalizer whose target range is nondegenerate,
`denormalize(normalize(a), a.min(), a.max())` reconstructs `a` exactly
over exact rational arithmetic (every entry finite and equal to the
original). -/
theorem C4_denormalize_inverts_normalize (m : MinMaxNormalizer) (a : Arr)
    (hA : arrMin a < arrMax a) (hm : m.max ≠ m.min) :
    m.denormalize (m.normalize a) (arrMin a) (arrMax a) = a.map some := by
  have h1 : arrMax a - arrMin a ≠ 0 := sub_ne_zero.mpr (ne_of_gt hA)
  have h2 : m.max - m.min ≠ 0 := sub_ne_zero.mpr hm
  unfold MinMaxNormalizer.denormalize MinMaxNormalizer.normalize
  rw [List.map_map]
  refine List.map_congr_left fun x _ => ?_
  simp only [Function.comp_apply, fdiv, h1, h2, if_false, reduceIte,
    Option.map_some', Option.some_bind, Option.some.injEq]
  field_simp
  ring

/-- Witness for C4 at the concrete array `[0, 1, 3]` and target range
`[0, 1]`. -/
theorem C4_denormalize_inverts_normalize_witness :
    arrMin [0, 1, 3] < arrMax [0, 1, 3] ∧
    (MinMaxNormalizer.mk 0 1).max ≠ (MinMaxNormalizer.mk 0 1).min ∧
    (MinMaxNormalizer.mk 0 1).denormalize
        ((MinMaxNormalizer.mk 0 1).normalize [0, 1, 3])
        (arrMin [0, 1, 3]) (arrMax [0, 1, 3]) = [0, 1, 3].map some :=
  ⟨by with_unfolding_all decide, by norm_num,
    C4_denormalize_inverts_normalize ⟨0, 1⟩ [0, 1, 3]
      (by with_unfolding_all decide) (by norm_num)⟩

/-- C3 (amended): with `_num_expected_samples = int(R·D)` (Python `int`,
truncation — not `round`), the pipeline's padding step right-pads a
shorter signal with exactly the deficit in zeros, reaching length
`int(R·D)`, and passes a signal of at least that length through
unchanged (never truncating); for the example configuration
`int(22050·0.74) = 16317`, which coincides with `round(22050·0.74)`. -/
theorem C3_padding_reaches_truncated_target (p : PreprocessingPipeline)
    (signal : Arr) (l : Loader)
    (hpad : p.padder = some ⟨"constant"⟩)
    (hn : p.num_expected_samples = some (pyInt (l.sample_rate * l.duration))) :
    (((signal.length : ℤ) < pyInt (l.sample_rate * l.duration) →
        p.padStep signal = .ok (signal ++ List.replicate
          (pyInt (l.sample_rate * l.duration) - signal.length).toNat 0) ∧
        ((signal ++ List.replicate
          (pyInt (l.sample_rate * l.duration) - signal.length).toNat 0).length : ℤ) =
            pyInt (l.sample_rate * l.duration)) ∧
      (pyInt (l.sample_rate * l.duration) ≤ (signal.length : ℤ) →
        p.padStep signal = .ok signal)) ∧
    pyInt (22050 * (74/100 : ℚ)) = 16317 ∧
    pyRound (22050 * (74/100 : ℚ)) = 16317 := by
  refine ⟨⟨?_, ?_⟩, by with_unfolding_all rfl, by with_unfolding_all rfl⟩
  · intro h
    constructor
    · unfold PreprocessingPipeline.padStep
        PreprocessingPipeline._is_padding_necessary
        PreprocessingPipeline._apply_padding
      rw [hn, hpad]
      simp [h, Padder.right_pad]
    · simp only [List.length_append, List.length_replicate]
      omega
  · intro h
    unfold PreprocessingPipeline.padStep
      PreprocessingPipeline._is_padding_necessary
    rw [hn]
    simp [not_lt.mpr h]

/-- Witness for C3 (amended): the demo pipeline (loader `sample_rate = 2`,
`duration = 3/2`, so `int(R·D) = 3`) pads the 1-sample signal `[1]` to
`[1, 0, 0]`. -/
theorem C3_padding_reaches_truncated_target_witness :
    (([1] : Arr).length : ℤ) < pyInt ((2 : ℚ) * (3/2)) ∧
    demoPipeline.padStep [1] = .ok [1, 0, 0] := by
  have hlt : (([1] : Arr).length : ℤ) < pyInt ((2 : ℚ) * (3/2)) := by
    with_unfolding_all decide
  have h2 := ((C3_padding_reaches_truncated_target demoPipeline [1]
    ⟨2, 3/2, true⟩ rfl rfl).1.1 hlt).1
  have e : ([1] : Arr) ++ List.replicate
      ((pyInt ((2 : ℚ) * (3/2)) - (([1] : Arr).length : ℤ)).toNat) 0 =
        [1, 0, 0] := by with_unfolding_all rfl
  rw [e] at h2
  exact ⟨hlt, h2⟩

/-- C6: per-file atomicity — whenever any stage of `_process_file`
(load, pad, extract, normalize, save) raises, the call leaves the
registry `min_max_values` unchanged (and writes no feature file): the
registry store is the last statement of `_process_file`, after every
fallible stage. -/
theorem C6_failed_file_leaves_registry_unchanged (env : Env)
    (p : PreprocessingPipeline) (fs : FS) (file_path : String)
    (h : (PreprocessingPipeline._process_file env p fs file_path).2 ≠ none) :
    (PreprocessingPipeline._process_file env p fs file_path).1.1.min_max_values =
        p.min_max_values ∧
    (PreprocessingPipeline._process_file env p fs file_path).1.2 = fs := by
  rcases hpf : PreprocessingPipeline._process_file env p fs file_path with
    ⟨⟨p', fs'⟩, err⟩
  have herr2 : err ≠ none := by rw [hpf] at h; exact h
  unfold PreprocessingPipeline._process_file at hpf
  repeat' split at hpf
  all_goals simp only [Prod.mk.injEq] at hpf
  all_goals obtain ⟨⟨hp', hfs'⟩, herr⟩ := hpf
  all_goals subst hp' hfs'
  all_goals first
    | exact ⟨rfl, rfl⟩
    | exact absurd herr.symm herr2

/-- Witness for C6: a decode error (failing loader) leaves the demo
pipeline's registry and the file system untouched. -/
theorem C6_failed_file_leaves_registry_unchanged_witness :
    (PreprocessingPipeline._process_file decodeErrEnv demoPipeline FS.empty
        "x.wav").2 ≠ none ∧
    (PreprocessingPipeline._process_file decodeErrEnv demoPipeline FS.empty
        "x.wav").1.1.min_max_values = demoPipeline.min_max_values := by
  have h : (PreprocessingPipeline._process_file decodeErrEnv demoPipeline
      FS.empty "x.wav").2 = some "DecodeError" := by with_unfolding_all rfl
  refine ⟨by rw [h]; simp, ?_⟩
  exact (C6_failed_file_leaves_registry_unchanged decodeErrEnv demoPipeline
    FS.empty "x.wav" (by rw [h]; simp)).1

/-- C7 (amended): when the directory walk completes without a file
failing, `process` persists the registry exactly once — the final
file-system state carries exactly one new snapshot, the run's final
registry, appended after the walk — and this includes the
zero-files-succeeded empty-directory case (where the persisted snapshot
is just the empty registry); when a file fails mid-run, the registry is
never persisted. -/
theorem C7_registry_persisted_once_after_walk (env : Env)
    (p : PreprocessingPipeline) (fs : FS) (files : List String) :
    ((PreprocessingPipeline.process env p fs files).2 = none →
      (PreprocessingPipeline.process env p fs files).1.2.min_max_saves =
        fs.min_max_saves ++
          [(PreprocessingPipeline.process env p fs files).1.1.min_max_values]) ∧
    ((PreprocessingPipeline.process env p fs files).2 ≠ none →
      (PreprocessingPipeline.process env p fs files).1.2.min_max_saves =
        fs.min_max_saves) := by
  induction files generalizing p fs with
  | nil =>
    unfold PreprocessingPipeline.process
    cases hs : p.saver with
    | none =>
      refine ⟨fun h => ?_, fun _ => rfl⟩
      simp at h
    | some sv =>
      exact ⟨fun _ => rfl, fun h => absurd rfl h⟩
  | cons f rest ih =>
    unfold PreprocessingPipeline.process
    rcases hpf : PreprocessingPipeline._process_file env p fs f with
      ⟨⟨p', fs'⟩, err⟩
    have hsaves : fs'.min_max_saves = fs.min_max_saves := by
      have hk := processFile_preserves_min_max_saves env p fs f
      rw [hpf] at hk
      exact hk
    cases err with
    | some e =>
      simp only [hpf]
      refine ⟨fun h => ?_, fun _ => hsaves⟩
      simp at h
    | none =>
      simp only [hpf]
      have hrest := ih p' fs'
      rw [hsaves] at hrest
      exact hrest

/-- Witness for C7 (amended): over an empty directory the demo run
completes and appends exactly one snapshot (the final — empty —
registry). -/
theorem C7_registry_persisted_once_after_walk_witness :
    (PreprocessingPipeline.process benignEnv demoPipeline FS.empty []).2 =
        none ∧
    (PreprocessingPipeline.process benignEnv demoPipeline FS.empty
        []).1.2.min_max_saves =
      FS.empty.min_max_saves ++
        [(PreprocessingPipeline.process benignEnv demoPipeline FS.empty
            []).1.1.min_max_values] := by
  have h : (PreprocessingPipeline.process benignEnv demoPipeline FS.empty
      []).2 = none := by with_unfolding_all rfl
  exact ⟨h,
    (C7_registry_persisted_once_after_walk benignEnv demoPipeline FS.empty
      []).1 h⟩

/-- `process` only appends to the registry; the loader reference and the
derived sample count ride through the whole walk unchanged. -/
theorem process_preserves_loader_fields (env : Env)
    (p : PreprocessingPipeline) (fs : FS) (files : List String) :
    (PreprocessingPipeline.process env p fs files).1.1.num_expected_samples =
        p.num_expected_samples ∧
    (PreprocessingPipeline.process env p fs files).1.1.loaderAttr =
        p.loaderAttr := by
  induction files generalizing p fs with
  | nil =>
    unfold PreprocessingPipeline.process
    cases hs : p.saver with
    | none => exact ⟨rfl, rfl⟩
    | some sv => exact ⟨rfl, rfl⟩
  | cons f rest ih =>
    unfold PreprocessingPipeline.process
    rcases hpf : PreprocessingPipeline._process_file env p fs f with
      ⟨⟨p', fs'⟩, err⟩
    have hfields := processFile_preserves_loader_fields env p fs f
    rw [hpf] at hfields
    cases err with
    | some e => simp only [hpf]; exact hfields
    | none =>
      simp only [hpf]
      have hrest := ih p' fs'
      rw [hfields.1, hfields.2] at hrest
      exact hrest

/-- C9: assigning the `loader` attribute recomputes
`_num_expected_samples` from that loader's `sample_rate` and `duration`
in the same assignment, and the only public operation of the pipeline,
`process`, never touches either field — so the two cannot drift apart. -/
theorem C9_loader_and_expected_samples_coupled (p : PreprocessingPipeline)
    (l : Loader) (env : Env) (fs : FS) (files : List String) :
    (p.setLoader l).num_expected_samples =
        some (pyInt (l.sample_rate * l.duration)) ∧
    (p.setLoader l).loaderAttr = some l ∧
    (PreprocessingPipeline.process env p fs files).1.1.num_expected_samples =
        p.num_expected_samples ∧
    (PreprocessingPipeline.process env p fs files).1.1.loaderAttr =
        p.loaderAttr :=
  ⟨rfl, rfl, (process_preserves_loader_fields env p fs files).1,
    (process_preserves_loader_fields env p fs files).2⟩

/-- C10: `normalize` never writes through its argument's reference —
both of its statements build fresh arrays — so after the call the array
at the input reference is unchanged, and in particular the
`feature.min()` / `feature.max()` that `_process_file` reads right after
normalization are still the pre-normalization extremes. -/
theorem C10_normalize_does_not_mutate_input (m : MinMaxNormalizer)
    (h : NpHeap) (r : Nat) (hr : r < h.arrays.length) :
    ((m.normalizeRef h r).1).get r = h.get r ∧
    arrMin (((m.normalizeRef h r).1).get r) = arrMin (h.get r) ∧
    arrMax (((m.normalizeRef h r).1).get r) = arrMax (h.get r) := by
  have key : ((m.normalizeRef h r).1).get r = h.get r := by
    unfold MinMaxNormalizer.normalizeRef NpHeap.alloc NpHeap.get
    rw [List.getD_append _ _ _ _ (by simpa using Nat.lt_succ_of_lt (by simpa using hr)),
      List.getD_append _ _ _ _ hr]
  exact ⟨key, by rw [key], by rw [key]⟩

/-- Witness for C10 at a concrete one-array heap. -/
theorem C10_normalize_does_not_mutate_input_witness :
    0 < (NpHeap.mk [[1, 2]]).arrays.length ∧
    ((MinMaxNormalizer.mk 0 1).normalizeRef (NpHeap.mk [[1, 2]]) 0).1.get 0 =
      (NpHeap.mk [[1, 2]]).get 0 :=
  ⟨by decide,
    (C10_normalize_does_not_mutate_input ⟨0, 1⟩ ⟨[[1, 2]]⟩ 0 (by decide)).1⟩

end JSBach
